import Mathlib

/-!
Shallow embedding of `src/script.js` (a browser BMI calculator).

Modelling conventions:
* JavaScript numbers are modelled as exact rationals (`ℚ`).  Each of the six
  input fields is stored as the value `parseFloat(field.value)` would give:
  `Option ℚ`, where `none` models NaN (an empty or unparsable field — note
  `parseFloat("") = NaN`).  Every NaN comparison `NaN > 0` is false, which the
  embedding reflects by pattern matching on `none`.
* `Number.prototype.toFixed(1)` is modelled on `ℚ` by `toFixed1`: the sign is
  split off and the magnitude is rounded to the nearest tenth, ties towards the
  larger value, exactly as the ECMAScript algorithm prescribes for fixed
  notation (the exponential regime for magnitudes ≥ 1e21 never arises here).
* The DOM is a record `Dom`: the parsed input field values, the four output
  text nodes (`textContent` strings) and the four `style.display` strings.
  Each event handler of the script becomes a pure function `Dom → Dom`.
-/

/-- `BMI_CATEGORIES.UNDERWEIGHT` from `script.js`. -/
def BMI_CATEGORIES_UNDERWEIGHT : ℚ := 18.5

/-- `BMI_CATEGORIES.HEALTHY` from `script.js`. -/
def BMI_CATEGORIES_HEALTHY : ℚ := 24.9

/-- `BMI_CATEGORIES.OVERWEIGHT` from `script.js`. -/
def BMI_CATEGORIES_OVERWEIGHT : ℚ := 29.9

/-- `IMPERIAL_BMI_FACTOR` from `script.js`. -/
def IMPERIAL_BMI_FACTOR : ℚ := 703

/-- `INCHES_PER_FOOT` from `script.js`. -/
def INCHES_PER_FOOT : ℚ := 12

/-- `POUNDS_PER_STONE` from `script.js`. -/
def POUNDS_PER_STONE : ℚ := 14

/-- The page state: parsed input field values (`none` models NaN, i.e. an
empty or unparsable field), output text nodes, and `style.display` values. -/
structure Dom where
  heightCm : Option ℚ        -- parseFloat(metricHeightInput.value)
  weightKg : Option ℚ        -- parseFloat(metricWeightInput.value)
  heightFt : Option ℚ        -- parseFloat(imperialHeightFtInput.value)
  heightIn : Option ℚ        -- parseFloat(imperialHeightInInput.value)
  weightSt : Option ℚ        -- parseFloat(imperialWeightStInput.value)
  weightLbs : Option ℚ       -- parseFloat(imperialWeightLbsInput.value)
  bmiNumber : String                 -- bmiNumberEl.textContent
  weightClassification : String      -- weightClassificationEl.textContent
  idealWeightFrom : String           -- idealWeightFromEl.textContent
  idealWeightTo : String             -- idealWeightToEl.textContent
  metricContainerDisplay : String    -- metricContainer.style.display
  imperialContainerDisplay : String  -- imperialContainer.style.display
  welcomeContainerDisplay : String   -- welcomeContainer.style.display
  bmiResultDisplay : String          -- bmiResultContainer.style.display
deriving DecidableEq, Repr

/-- The `{low, high}` healthy-range object passed to `updateBmiDisplay`. -/
structure HealthyRange where
  low : ℚ
  high : ℚ
deriving DecidableEq, Repr

/-- `getWeightClassification(bmi)` from `script.js`. -/
def getWeightClassification (bmi : ℚ) : String :=
  if bmi < BMI_CATEGORIES_UNDERWEIGHT then "underweight"
  else if bmi < BMI_CATEGORIES_HEALTHY then "a healthy weight"
  else if bmi < BMI_CATEGORIES_OVERWEIGHT then "overweight"
  else "obese"

/-- The fixed-notation part of `x.toFixed(1)` for a non-negative `x`: round
`10·x` to the nearest integer, ties towards the larger integer, then print
with one digit after the decimal point. -/
def toFixed1Abs (x : ℚ) : String :=
  let n : ℕ := (⌊x * 10 + 1/2⌋).toNat
  toString (n / 10) ++ "." ++ toString (n % 10)

/-- `x.toFixed(1)`: ECMAScript splits off the sign first, then rounds the
magnitude. -/
def toFixed1 (x : ℚ) : String :=
  if x < 0 then "-" ++ toFixed1Abs (-x) else toFixed1Abs x

/-- `updateBmiDisplay(bmi, healthyRange, unit)` from `script.js`. -/
def updateBmiDisplay (bmi : ℚ) (healthyRange : HealthyRange) (unit : String)
    (d : Dom) : Dom :=
  { d with
    bmiNumber := toFixed1 bmi
    weightClassification := getWeightClassification bmi
    idealWeightFrom := toFixed1 healthyRange.low ++ unit
    idealWeightTo := toFixed1 healthyRange.high ++ unit
    welcomeContainerDisplay := "none"
    bmiResultDisplay := "flex" }

/-- `calculateMetricBMI()` from `script.js`.  `parseFloat` of either field may
be NaN (`none`); the guard `heightCm > 0 && weightKg > 0` is false on NaN, so
only the `some`/`some` branch can pass it. -/
def calculateMetricBMI (d : Dom) : Dom :=
  match d.heightCm, d.weightKg with
  | some heightCm, some weightKg =>
      if 0 < heightCm ∧ 0 < weightKg then
        let heightM := heightCm / 100
        let bmi := weightKg / (heightM * heightM)
        let healthyWeightLow := BMI_CATEGORIES_UNDERWEIGHT * (heightM * heightM)
        let healthyWeightHigh := BMI_CATEGORIES_HEALTHY * (heightM * heightM)
        updateBmiDisplay bmi ⟨healthyWeightLow, healthyWeightHigh⟩ ("kgs") d
      else d
  | _, _ => d  -- a NaN operand fails the `> 0` comparison: no display change

/-- `calculateImperialBMI()` from `script.js`.  Each field is read as
`parseFloat(...) || 0`: a NaN (and a zero) collapses to `0`. -/
def calculateImperialBMI (d : Dom) : Dom :=
  let heightFt := d.heightFt.getD 0
  let heightIn := d.heightIn.getD 0
  let weightSt := d.weightSt.getD 0
  let weightLbs := d.weightLbs.getD 0
  let totalHeightInches := heightFt * INCHES_PER_FOOT + heightIn
  let totalWeightPounds := weightSt * POUNDS_PER_STONE + weightLbs
  if 0 < totalHeightInches ∧ 0 < totalWeightPounds then
    let bmi := totalWeightPounds / (totalHeightInches * totalHeightInches) *
      IMPERIAL_BMI_FACTOR
    let healthyWeightLow :=
      BMI_CATEGORIES_UNDERWEIGHT * (totalHeightInches * totalHeightInches) /
        IMPERIAL_BMI_FACTOR
    let healthyWeightHigh :=
      BMI_CATEGORIES_HEALTHY * (totalHeightInches * totalHeightInches) /
        IMPERIAL_BMI_FACTOR
    updateBmiDisplay bmi ⟨healthyWeightLow, healthyWeightHigh⟩ ("lbs") d
  else d

/-- `switchUnitSystem(systemToShow)` from `script.js`.  Clearing an input
(`input.value = ""`) makes its parsed value NaN, i.e. `none` in the model. -/
def switchUnitSystem (systemToShow : String) (d : Dom) : Dom :=
  let isMetric := systemToShow == "metric"
  { d with
    metricContainerDisplay := if isMetric then "flex" else "none"
    imperialContainerDisplay := if isMetric then "none" else "flex"
    welcomeContainerDisplay := "flex"
    bmiResultDisplay := "none"
    heightCm := if isMetric then d.heightCm else none
    weightKg := if isMetric then d.weightKg else none
    heightFt := if isMetric then none else d.heightFt
    heightIn := if isMetric then none else d.heightIn
    weightSt := if isMetric then none else d.weightSt
    weightLbs := if isMetric then none else d.weightLbs }

/-- The initial page state: metric mode visible, welcome message shown, all
fields empty. -/
def emptyDom : Dom :=
  { heightCm := none, weightKg := none, heightFt := none, heightIn := none
    weightSt := none, weightLbs := none
    bmiNumber := "", weightClassification := "", idealWeightFrom := ""
    idealWeightTo := ""
    metricContainerDisplay := "flex", imperialContainerDisplay := "none"
    welcomeContainerDisplay := "flex", bmiResultDisplay := "none" }

/-- The JavaScript comparison `x > c` where `x` may be NaN (`none`): a NaN
comparison is always false. -/
def nanGt (x : Option ℚ) (c : ℚ) : Bool :=
  match x with
  | some q => decide (c < q)
  | none => false

/-- The guard of `calculateMetricBMI`: `heightCm > 0 && weightKg > 0`. -/
def metricOk (d : Dom) : Bool :=
  nanGt d.heightCm 0 && nanGt d.weightKg 0

/-- `totalHeightInches` as computed by `calculateImperialBMI` (each field read
as `parseFloat(...) || 0`). -/
def imperialTotalHeightInches (d : Dom) : ℚ :=
  d.heightFt.getD 0 * INCHES_PER_FOOT + d.heightIn.getD 0

/-- `totalWeightPounds` as computed by `calculateImperialBMI`. -/
def imperialTotalWeightPounds (d : Dom) : ℚ :=
  d.weightSt.getD 0 * POUNDS_PER_STONE + d.weightLbs.getD 0

/-- The guard of `calculateImperialBMI`:
`totalHeightInches > 0 && totalWeightPounds > 0`. -/
def imperialOk (d : Dom) : Bool :=
  decide (0 < imperialTotalHeightInches d ∧ 0 < imperialTotalWeightPounds d)

/-- The metric BMI formula of line 82 of `script.js`. -/
def metricBmi (heightCm weightKg : ℚ) : ℚ :=
  weightKg / ((heightCm / 100) * (heightCm / 100))

/-- The metric `healthyWeightLow` formula of line 84 of `script.js`. -/
def metricHealthyLow (heightCm : ℚ) : ℚ :=
  BMI_CATEGORIES_UNDERWEIGHT * ((heightCm / 100) * (heightCm / 100))

/-- The metric `healthyWeightHigh` formula of line 85 of `script.js`. -/
def metricHealthyHigh (heightCm : ℚ) : ℚ :=
  BMI_CATEGORIES_HEALTHY * ((heightCm / 100) * (heightCm / 100))

/-- The imperial BMI formula of lines 110–112 of `script.js`. -/
def imperialBmi (totalHeightInches totalWeightPounds : ℚ) : ℚ :=
  totalWeightPounds / (totalHeightInches * totalHeightInches) *
    IMPERIAL_BMI_FACTOR

/-- The imperial `healthyWeightLow` formula of lines 114–116 of `script.js`. -/
def imperialHealthyLow (totalHeightInches : ℚ) : ℚ :=
  BMI_CATEGORIES_UNDERWEIGHT * (totalHeightInches * totalHeightInches) /
    IMPERIAL_BMI_FACTOR

/-- The imperial `healthyWeightHigh` formula of lines 117–119 of `script.js`. -/
def imperialHealthyHigh (totalHeightInches : ℚ) : ℚ :=
  BMI_CATEGORIES_HEALTHY * (totalHeightInches * totalHeightInches) /
    IMPERIAL_BMI_FACTOR

/-- The six input-field values, the only data the calculation handlers read. -/
def inputFields (d : Dom) :
    Option ℚ × Option ℚ × Option ℚ × Option ℚ × Option ℚ × Option ℚ :=
  (d.heightCm, d.weightKg, d.heightFt, d.heightIn, d.weightSt, d.weightLbs)

/-- The rendered output: the four text nodes plus the welcome/result
visibility toggles. -/
def renderedOutput (d : Dom) :
    String × String × String × String × String × String :=
  (d.bmiNumber, d.weightClassification, d.idealWeightFrom, d.idealWeightTo,
    d.welcomeContainerDisplay, d.bmiResultDisplay)

/-- The spec's worked example: metric mode with height 170 cm, weight 70 kg. -/
def metricExampleDom : Dom :=
  { emptyDom with heightCm := some 170, weightKg := some 70 }

/-- The spec's imperial worked example: 5 ft 9 in, 11 st 0 lb. -/
def imperialExampleDom : Dom :=
  { emptyDom with
    heightFt := some 5, heightIn := some 9
    weightSt := some 11, weightLbs := some 0 }

/-- A page state with all six fields filled and some stale output text. -/
def domA : Dom :=
  { emptyDom with
    heightCm := some 170, weightKg := some 70
    heightFt := some 5, heightIn := some 9
    weightSt := some 11, weightLbs := some 0 }

/-- Same input fields as `domA`, different prior output text and
visibility. -/
def domB : Dom :=
  { domA with
    bmiNumber := "stale", weightClassification := "stale"
    idealWeightFrom := "stale", idealWeightTo := "stale"
    welcomeContainerDisplay := "flex", bmiResultDisplay := "none" }

/-- An imperial state with a negative feet field: `-1 ft` plus `20 in` still
gives a positive total height of 8 inches. -/
def negFeetDom : Dom :=
  { emptyDom with
    heightFt := some (-1), heightIn := some 20
    weightSt := some 10, weightLbs := some 0 }

/-- C3: `getWeightClassification` realises the four half-open bands
underweight `< 18.5 ≤` healthy `< 24.9 ≤` overweight `< 29.9 ≤` obese, and
each boundary value 18.5, 24.9, 29.9 lands in the upper band. -/
theorem getWeightClassification_bands (bmi : ℚ) :
    (getWeightClassification bmi = "underweight" ↔ bmi < 18.5) ∧
    (getWeightClassification bmi = "a healthy weight" ↔
      18.5 ≤ bmi ∧ bmi < 24.9) ∧
    (getWeightClassification bmi = "overweight" ↔
      24.9 ≤ bmi ∧ bmi < 29.9) ∧
    (getWeightClassification bmi = "obese" ↔ 29.9 ≤ bmi) ∧
    getWeightClassification (18.5 : ℚ) = "a healthy weight" ∧
    getWeightClassification (24.9 : ℚ) = "overweight" ∧
    getWeightClassification (29.9 : ℚ) = "obese" := by
  have c18 : getWeightClassification (18.5 : ℚ) = "a healthy weight" := by
    norm_num [getWeightClassification, BMI_CATEGORIES_UNDERWEIGHT,
      BMI_CATEGORIES_HEALTHY]
  have c24 : getWeightClassification (24.9 : ℚ) = "overweight" := by
    norm_num [getWeightClassification, BMI_CATEGORIES_UNDERWEIGHT,
      BMI_CATEGORIES_HEALTHY, BMI_CATEGORIES_OVERWEIGHT]
  have c29 : getWeightClassification (29.9 : ℚ) = "obese" := by
    norm_num [getWeightClassification, BMI_CATEGORIES_UNDERWEIGHT,
      BMI_CATEGORIES_HEALTHY, BMI_CATEGORIES_OVERWEIGHT]
  refine ⟨?_, ?_, ?_, ?_, c18, c24, c29⟩ <;>
  · unfold getWeightClassification BMI_CATEGORIES_UNDERWEIGHT
      BMI_CATEGORIES_HEALTHY BMI_CATEGORIES_OVERWEIGHT
    split_ifs with h1 h2 h3 <;>
      constructor <;> intro h <;>
        first
          | rfl
          | assumption
          | (exact absurd h (by decide))
          | (exact ⟨by linarith, by linarith⟩)
          | (exfalso; rcases h with ⟨ha, hb⟩; linarith)
          | (exfalso; linarith)
          | linarith

/-- C5: for either target, `switchUnitSystem` shows the matching input group,
hides the other, clears the now-hidden group's fields, hides the results view
and shows the welcome view; it is total, so it never fails. -/
theorem switchUnitSystem_resets (d : Dom) :
    switchUnitSystem ("metric") d =
      { d with
        metricContainerDisplay := "flex", imperialContainerDisplay := "none",
        welcomeContainerDisplay := "flex", bmiResultDisplay := "none",
        heightFt := none, heightIn := none, weightSt := none,
        weightLbs := none } ∧
    switchUnitSystem ("imperial") d =
      { d with
        metricContainerDisplay := "none", imperialContainerDisplay := "flex",
        welcomeContainerDisplay := "flex", bmiResultDisplay := "none",
        heightCm := none, weightKg := none } := by
  constructor <;> rfl

/-- C1: on a metric input with positive parsed height and weight,
`calculateMetricBMI` computes `height_m = heightCm / 100`,
`bmi = weightKg / height_m²`, `healthyWeightLow = 18.5 · height_m²`,
`healthyWeightHigh = 24.9 · height_m²`, and hands them to the render step
with unit suffix "kgs". -/
theorem calculateMetricBMI_formula (d : Dom) (heightCm weightKg : ℚ)
    (hh : d.heightCm = some heightCm) (hw : d.weightKg = some weightKg)
    (h1 : 0 < heightCm) (h2 : 0 < weightKg) :
    calculateMetricBMI d =
      updateBmiDisplay (weightKg / (heightCm / 100) ^ 2)
        ⟨18.5 * (heightCm / 100) ^ 2, 24.9 * (heightCm / 100) ^ 2⟩
        ("kgs") d := by
  simp only [calculateMetricBMI, hh, hw]
  rw [if_pos ⟨h1, h2⟩]
  simp only [pow_two, BMI_CATEGORIES_UNDERWEIGHT, BMI_CATEGORIES_HEALTHY]

/-- Witness for C1 at the spec's example input (170 cm, 70 kg). -/
theorem calculateMetricBMI_formula_witness :
    calculateMetricBMI metricExampleDom =
      updateBmiDisplay ((70 : ℚ) / ((170 : ℚ) / 100) ^ 2)
        ⟨18.5 * ((170 : ℚ) / 100) ^ 2, 24.9 * ((170 : ℚ) / 100) ^ 2⟩
        ("kgs") metricExampleDom :=
  calculateMetricBMI_formula metricExampleDom 170 70 rfl rfl
    (by norm_num) (by norm_num)

/-- C2: on an imperial input whose four fields parse, `calculateImperialBMI`
computes `totalHeightInches = feet·12 + inches`,
`totalWeightPounds = stone·14 + pounds`, and when both totals are positive
renders `bmi = totalWeightPounds / totalHeightInches² · 703`,
`healthyWeightLow = 18.5 · totalHeightInches² / 703`,
`healthyWeightHigh = 24.9 · totalHeightInches² / 703` with unit suffix
"lbs". -/
theorem calculateImperialBMI_formula (d : Dom) (feet inches stone pounds : ℚ)
    (h1 : d.heightFt = some feet) (h2 : d.heightIn = some inches)
    (h3 : d.weightSt = some stone) (h4 : d.weightLbs = some pounds)
    (hH : 0 < feet * 12 + inches) (hW : 0 < stone * 14 + pounds) :
    calculateImperialBMI d =
      updateBmiDisplay
        ((stone * 14 + pounds) / (feet * 12 + inches) ^ 2 * 703)
        ⟨18.5 * (feet * 12 + inches) ^ 2 / 703,
          24.9 * (feet * 12 + inches) ^ 2 / 703⟩
        ("lbs") d := by
  simp only [calculateImperialBMI, h1, h2, h3, h4, Option.getD_some,
    INCHES_PER_FOOT, POUNDS_PER_STONE, IMPERIAL_BMI_FACTOR,
    BMI_CATEGORIES_UNDERWEIGHT, BMI_CATEGORIES_HEALTHY]
  rw [if_pos ⟨hH, hW⟩]
  simp only [pow_two]

/-- Witness for C2 at the spec's example input (5 ft 9 in, 11 st 0 lb). -/
theorem calculateImperialBMI_formula_witness :
    calculateImperialBMI imperialExampleDom =
      updateBmiDisplay
        (((11 : ℚ) * 14 + 0) / ((5 : ℚ) * 12 + 9) ^ 2 * 703)
        ⟨18.5 * ((5 : ℚ) * 12 + 9) ^ 2 / 703,
          24.9 * ((5 : ℚ) * 12 + 9) ^ 2 / 703⟩
        ("lbs") imperialExampleDom :=
  calculateImperialBMI_formula imperialExampleDom 5 9 11 0 rfl rfl rfl rfl
    (by norm_num) (by norm_num)

/-- C4: whenever a mode's guard fails (non-positive or NaN height/weight in
the metric mode, non-positive totals in the imperial mode), that mode's
handler returns the page state unchanged: no text written, no visibility
toggled, no error shown. -/
theorem invalid_input_is_noop (d : Dom) :
    (metricOk d = false → calculateMetricBMI d = d) ∧
    (imperialOk d = false → calculateImperialBMI d = d) := by
  constructor
  · intro h
    unfold metricOk nanGt at h
    rcases hc : d.heightCm with _ | x <;> rcases hw : d.weightKg with _ | y <;>
      simp only [hc, hw, Bool.and_eq_true, Bool.and_eq_false_iff,
        decide_eq_false_iff_not] at h <;>
      simp only [calculateMetricBMI, hc, hw]
    have hxy : ¬(0 < x ∧ 0 < y) := by
      rcases h with h | h
      · exact fun hp => absurd hp.1 h
      · exact fun hp => absurd hp.2 h
    rw [if_neg hxy]
  · intro h
    unfold imperialOk imperialTotalHeightInches imperialTotalWeightPounds at h
    rw [decide_eq_false_iff_not] at h
    simp only [calculateImperialBMI]
    rw [if_neg h]

/-- Witness for C4: on the initial empty page neither handler changes
anything. -/
theorem invalid_input_is_noop_witness :
    calculateMetricBMI emptyDom = emptyDom ∧
    calculateImperialBMI emptyDom = emptyDom :=
  ⟨(invalid_input_is_noop emptyDom).1 rfl,
    (invalid_input_is_noop emptyDom).2
      (by norm_num [imperialOk, imperialTotalHeightInches,
        imperialTotalWeightPounds, emptyDom, INCHES_PER_FOOT,
        POUNDS_PER_STONE])⟩

/-- C6: in `calculateImperialBMI` an unparsable field (NaN, modelled `none`)
is read as 0 — the run is identical to the run with that field holding 0 —
while in the metric path an unparsable field makes the handler do nothing
rather than substitute 0. -/
theorem imperial_nan_reads_as_zero (d : Dom) :
    (d.heightFt = none →
      renderedOutput (calculateImperialBMI d) =
        renderedOutput (calculateImperialBMI { d with heightFt := some 0 })) ∧
    (d.heightIn = none →
      renderedOutput (calculateImperialBMI d) =
        renderedOutput (calculateImperialBMI { d with heightIn := some 0 })) ∧
    (d.weightSt = none →
      renderedOutput (calculateImperialBMI d) =
        renderedOutput (calculateImperialBMI { d with weightSt := some 0 })) ∧
    (d.weightLbs = none →
      renderedOutput (calculateImperialBMI d) =
        renderedOutput (calculateImperialBMI { d with weightLbs := some 0 })) ∧
    (d.heightCm = none → calculateMetricBMI d = d) ∧
    (d.weightKg = none → calculateMetricBMI d = d) := by
  refine ⟨fun h => ?_, fun h => ?_, fun h => ?_, fun h => ?_, fun h => ?_,
    fun h => ?_⟩
  · simp only [calculateImperialBMI, renderedOutput, h, Option.getD_none,
      Option.getD_some]
    split_ifs with hC <;> rfl
  · simp only [calculateImperialBMI, renderedOutput, h, Option.getD_none,
      Option.getD_some]
    split_ifs with hC <;> rfl
  · simp only [calculateImperialBMI, renderedOutput, h, Option.getD_none,
      Option.getD_some]
    split_ifs with hC <;> rfl
  · simp only [calculateImperialBMI, renderedOutput, h, Option.getD_none,
      Option.getD_some]
    split_ifs with hC <;> rfl
  · simp only [calculateMetricBMI, h]
  · rcases hc : d.heightCm with _ | x <;> simp only [calculateMetricBMI, h, hc]

/-- Witness for C6: on the empty page every imperial field is NaN and reads
as 0, and the metric handler does nothing. -/
theorem imperial_nan_reads_as_zero_witness :
    renderedOutput (calculateImperialBMI emptyDom) =
      renderedOutput (calculateImperialBMI
        { emptyDom with heightFt := some 0 }) ∧
    calculateMetricBMI emptyDom = emptyDom :=
  ⟨(imperial_nan_reads_as_zero emptyDom).1 rfl,
    (imperial_nan_reads_as_zero emptyDom).2.2.2.2.1 rfl⟩

/-- C7: the render step writes the BMI formatted to one decimal place, the
classification, and low/high formatted to one decimal place with the unit
suffix appended, hides the welcome view and shows the results view; on the
spec's example (170 cm, 70 kg) it renders "24.2", "a healthy weight",
"53.5kgs" and "72.0kgs". -/
theorem updateBmiDisplay_renders (bmi lo hi : ℚ) (unit : String) (d : Dom) :
    renderedOutput (updateBmiDisplay bmi ⟨lo, hi⟩ unit d) =
      (toFixed1 bmi, getWeightClassification bmi, toFixed1 lo ++ unit,
        toFixed1 hi ++ unit, "none", "flex") ∧
    (calculateMetricBMI metricExampleDom).bmiNumber = "24.2" ∧
    (calculateMetricBMI metricExampleDom).weightClassification =
      "a healthy weight" ∧
    (calculateMetricBMI metricExampleDom).idealWeightFrom = "53.5kgs" ∧
    (calculateMetricBMI metricExampleDom).idealWeightTo = "72.0kgs" := by
  refine ⟨rfl, ?_, ?_, ?_, ?_⟩
  · norm_num [calculateMetricBMI, metricExampleDom, emptyDom,
      updateBmiDisplay, toFixed1, toFixed1Abs]
    rfl
  · norm_num [calculateMetricBMI, metricExampleDom, emptyDom,
      updateBmiDisplay, getWeightClassification, BMI_CATEGORIES_UNDERWEIGHT,
      BMI_CATEGORIES_HEALTHY]
  · norm_num [calculateMetricBMI, metricExampleDom, emptyDom,
      updateBmiDisplay, toFixed1, toFixed1Abs, BMI_CATEGORIES_UNDERWEIGHT]
    rfl
  · norm_num [calculateMetricBMI, metricExampleDom, emptyDom,
      updateBmiDisplay, toFixed1, toFixed1Abs, BMI_CATEGORIES_HEALTHY]
    rfl

/-- C8: at any positive height, plugging the computed healthy-weight bounds
back into the same mode's BMI formula gives exactly 18.5 and 24.9, and the
rendered range is exactly the weight interval whose BMI lies in
[18.5, 24.9), in both modes. -/
theorem healthy_range_matches_thresholds (h H : ℚ) (hp : 0 < h)
    (Hp : 0 < H) :
    metricBmi h (metricHealthyLow h) = 18.5 ∧
    metricBmi h (metricHealthyHigh h) = 24.9 ∧
    imperialBmi H (imperialHealthyLow H) = 18.5 ∧
    imperialBmi H (imperialHealthyHigh H) = 24.9 ∧
    (∀ w, metricHealthyLow h ≤ w ∧ w < metricHealthyHigh h ↔
      18.5 ≤ metricBmi h w ∧ metricBmi h w < 24.9) ∧
    (∀ w, imperialHealthyLow H ≤ w ∧ w < imperialHealthyHigh H ↔
      18.5 ≤ imperialBmi H w ∧ imperialBmi H w < 24.9) := by
  have h100 : (0 : ℚ) < h / 100 := div_pos hp (by norm_num)
  have hm : (0 : ℚ) < h / 100 * (h / 100) := mul_pos h100 h100
  have hH2 : (0 : ℚ) < H * H := mul_pos Hp Hp
  have hHne : H ≠ 0 := Hp.ne'
  have p703 : (0 : ℚ) < 703 := by norm_num
  refine ⟨?_, ?_, ?_, ?_, ?_, ?_⟩
  · unfold metricBmi metricHealthyLow BMI_CATEGORIES_UNDERWEIGHT
    exact mul_div_cancel_right₀ _ hm.ne'
  · unfold metricBmi metricHealthyHigh BMI_CATEGORIES_HEALTHY
    exact mul_div_cancel_right₀ _ hm.ne'
  · unfold imperialBmi imperialHealthyLow BMI_CATEGORIES_UNDERWEIGHT
      IMPERIAL_BMI_FACTOR
    field_simp
    ring
  · unfold imperialBmi imperialHealthyHigh BMI_CATEGORIES_HEALTHY
      IMPERIAL_BMI_FACTOR
    field_simp
    ring
  · intro w
    unfold metricBmi metricHealthyLow metricHealthyHigh
      BMI_CATEGORIES_UNDERWEIGHT BMI_CATEGORIES_HEALTHY
    rw [le_div_iff₀ hm, div_lt_iff₀ hm]
  · intro w
    unfold imperialBmi imperialHealthyLow imperialHealthyHigh
      BMI_CATEGORIES_UNDERWEIGHT BMI_CATEGORIES_HEALTHY IMPERIAL_BMI_FACTOR
    simp only [div_mul_eq_mul_div]
    rw [le_div_iff₀ hH2, div_lt_iff₀ hH2, div_le_iff₀ p703, lt_div_iff₀ p703]

/-- Witness for C8 at heights 170 cm and 69 total inches. -/
theorem healthy_range_matches_thresholds_witness :
    metricBmi 170 (metricHealthyLow 170) = 18.5 ∧
    metricBmi 170 (metricHealthyHigh 170) = 24.9 ∧
    imperialBmi 69 (imperialHealthyLow 69) = 18.5 ∧
    imperialBmi 69 (imperialHealthyHigh 69) = 24.9 :=
  have t := healthy_range_matches_thresholds 170 69 (by norm_num)
    (by norm_num)
  ⟨t.1, t.2.1, t.2.2.1, t.2.2.2.1⟩

/-- C9: the text and visibility written by the two calculation handlers are
determined solely by the six input-field values — two states agreeing on all
fields render identically whenever rendering happens, whichever field's
input event fired (both groups share one handler function). -/
theorem rendered_output_only_from_fields (d1 d2 : Dom)
    (hf : inputFields d1 = inputFields d2) :
    (metricOk d1 = true →
      renderedOutput (calculateMetricBMI d1) =
        renderedOutput (calculateMetricBMI d2)) ∧
    (imperialOk d1 = true →
      renderedOutput (calculateImperialBMI d1) =
        renderedOutput (calculateImperialBMI d2)) := by
  obtain ⟨h1, h2, h3, h4, h5, h6⟩ :
      d1.heightCm = d2.heightCm ∧ d1.weightKg = d2.weightKg ∧
      d1.heightFt = d2.heightFt ∧ d1.heightIn = d2.heightIn ∧
      d1.weightSt = d2.weightSt ∧ d1.weightLbs = d2.weightLbs := by
    simpa [inputFields, Prod.ext_iff] using hf
  constructor
  · intro hok
    unfold metricOk nanGt at hok
    rcases hc : d1.heightCm with _ | x
    · rw [hc] at hok; simp at hok
    rcases hw : d1.weightKg with _ | y
    · rw [hc, hw] at hok; simp at hok
    rw [hc, hw] at hok
    simp only [Bool.and_eq_true, decide_eq_true_eq] at hok
    have hc2 : d2.heightCm = some x := h1.symm.trans hc
    have hw2 : d2.weightKg = some y := h2.symm.trans hw
    simp only [calculateMetricBMI, renderedOutput, hc, hw, hc2, hw2]
    simp only [if_pos hok]
    rfl
  · intro hok
    unfold imperialOk imperialTotalHeightInches imperialTotalWeightPounds
      at hok
    rw [decide_eq_true_eq] at hok
    rw [h3, h4, h5, h6] at hok
    simp only [calculateImperialBMI, renderedOutput, h3, h4, h5, h6]
    simp only [if_pos hok]
    rfl

/-- Witness for C9: two states with the same six fields but different stale
output text render the same result in both modes. -/
theorem rendered_output_only_from_fields_witness :
    renderedOutput (calculateMetricBMI domA) =
      renderedOutput (calculateMetricBMI domB) ∧
    renderedOutput (calculateImperialBMI domA) =
      renderedOutput (calculateImperialBMI domB) :=
  ⟨(rendered_output_only_from_fields domA domB rfl).1
      (by norm_num [metricOk, nanGt, domA, emptyDom]),
    (rendered_output_only_from_fields domA domB rfl).2
      (by norm_num [imperialOk, imperialTotalHeightInches,
        imperialTotalWeightPounds, domA, emptyDom, INCHES_PER_FOOT,
        POUNDS_PER_STONE])⟩

/-- C10: the imperial guard checks only the combined totals, never the
individual fields: whenever `feet·12 + inches > 0` and
`stone·14 + pounds > 0` the handler renders a result, even with a negative
field — in particular feet = -1 with inches = 20 gives total height 8 and a
displayed result. -/
theorem imperial_guard_uses_totals_only (d : Dom)
    (feet inches stone pounds : ℚ)
    (h1 : d.heightFt = some feet) (h2 : d.heightIn = some inches)
    (h3 : d.weightSt = some stone) (h4 : d.weightLbs = some pounds)
    (hH : 0 < feet * 12 + inches) (hW : 0 < stone * 14 + pounds) :
    ((calculateImperialBMI d).welcomeContainerDisplay = "none" ∧
      (calculateImperialBMI d).bmiResultDisplay = "flex") ∧
    imperialTotalHeightInches negFeetDom = 8 ∧
    (calculateImperialBMI negFeetDom).bmiResultDisplay = "flex" := by
  refine ⟨?_, ?_, ?_⟩
  · simp only [calculateImperialBMI, h1, h2, h3, h4, Option.getD_some,
      INCHES_PER_FOOT, POUNDS_PER_STONE]
    rw [if_pos ⟨hH, hW⟩]
    exact ⟨rfl, rfl⟩
  · norm_num [imperialTotalHeightInches, negFeetDom, emptyDom,
      INCHES_PER_FOOT]
  · norm_num [calculateImperialBMI, negFeetDom, emptyDom, updateBmiDisplay,
      INCHES_PER_FOOT, POUNDS_PER_STONE]

/-- Witness for C10 at the negative-feet example. -/
theorem imperial_guard_uses_totals_only_witness :
    (calculateImperialBMI negFeetDom).welcomeContainerDisplay = "none" ∧
    (calculateImperialBMI negFeetDom).bmiResultDisplay = "flex" :=
  (imperial_guard_uses_totals_only negFeetDom (-1) 20 10 0 rfl rfl rfl rfl
    (by norm_num) (by norm_num)).1
